import Mathlib

/-!
Verification of the `v700` social-research service (`alibaba_websailor.py`).

Each Python routine relevant to the checked claims is shallowly embedded as
an executable Lean definition: Python ints become `Nat`/`Int`, floats whose
arithmetic is exact at the granularity the code uses become `Rat`, fallible
calls become `Except`/`Option` values, and the mutable per-service state of
the credential rotator becomes an explicit state record.
-/

namespace WebSailor

/-- Rounding to two decimal places, modelling Python `round(x, 2)` on the
exact rational value of `x`. -/
def round2 (x : ℚ) : ℚ := (round (x * 100) : ℚ) / 100

/-- Embedding of `_calculate_engagement_score(likes, comments, shares, views,
followers)`: weighted interactions (comments ×5, shares ×10), a rate against
views, else followers, else the raw weighted count, a 1.2× bonus when the
weighted count exceeds 100, and a floor of a tenth of the weighted count,
rounded to 2 decimals. -/
def calculate_engagement_score (likes comments shares views followers : ℕ) : ℚ :=
  let total_interactions : ℚ := (likes : ℚ) + (comments : ℚ) * 5 + (shares : ℚ) * 10
  let rate : ℚ :=
    if 0 < views then (total_interactions / (max views 1 : ℕ)) * 100
    else if 0 < followers then (total_interactions / (max followers 1 : ℕ)) * 100
    else total_interactions
  let rate : ℚ := if 100 < total_interactions then rate * 1.2 else rate
  round2 (max rate (total_interactions * 0.1))

/-- Modelled from the spec's reference algorithm for the engagement score:
`weighted = likes + comments*5 + shares*10`; if `views>0` then
`rate = weighted/views*100`, else if `followers>0` then
`rate = weighted/followers*100`, else `rate = weighted`; if `weighted > 100`
the rate is multiplied by 1.2; the result is `max(rate, weighted*0.1)`
rounded to 2 decimals. -/
def engagement_score_specref (likes comments shares views followers : ℕ) : ℚ :=
  let weighted : ℚ := (likes : ℚ) + (comments : ℚ) * 5 + (shares : ℚ) * 10
  let rate : ℚ :=
    if 0 < views then weighted / (views : ℚ) * 100
    else if 0 < followers then weighted / (followers : ℚ) * 100
    else weighted
  let rate : ℚ := if 100 < weighted then rate * 1.2 else rate
  round2 (max rate (weighted * 0.1))

theorem round2_mono {x y : ℚ} (h : x ≤ y) : round2 x ≤ round2 y := by
  unfold round2
  have hr : round (x * 100) ≤ round (y * 100) := by
    rw [round_eq, round_eq]
    exact Int.floor_mono (by linarith)
  have : ((round (x * 100) : ℤ) : ℚ) ≤ ((round (y * 100) : ℤ) : ℚ) := by
    exact_mod_cast hr
  exact div_le_div_of_nonneg_right this (by norm_num) |>.trans_eq rfl

theorem round2_nonneg {x : ℚ} (h : 0 ≤ x) : 0 ≤ round2 x := by
  have : round2 0 ≤ round2 x := round2_mono h
  simpa [round2] using this

/-- The raw engagement rate before the high-interaction bonus, as a function
of the weighted interaction total with views/followers fixed. -/
def baseRate (views followers : ℕ) (t : ℚ) : ℚ :=
  if 0 < views then (t / (max views 1 : ℕ)) * 100
  else if 0 < followers then (t / (max followers 1 : ℕ)) * 100
  else t

/-- The engagement score as a function of the weighted interaction total,
with the views/followers fields fixed; `calculate_engagement_score` factors
through it. -/
def scoreOfTotal (views followers : ℕ) (t : ℚ) : ℚ :=
  round2 (max (if 100 < t then baseRate views followers t * 1.2
    else baseRate views followers t) (t * 0.1))

theorem calculate_eq_scoreOfTotal (l c s v f : ℕ) :
    calculate_engagement_score l c s v f =
      scoreOfTotal v f ((l : ℚ) + (c : ℚ) * 5 + (s : ℚ) * 10) := rfl

theorem maxCast_pos (n : ℕ) : (0 : ℚ) < ((max n 1 : ℕ) : ℚ) := by
  exact_mod_cast Nat.lt_of_lt_of_le Nat.zero_lt_one (Nat.le_max_right n 1)

theorem baseRate_mono (v f : ℕ) {t t' : ℚ} (h : t ≤ t') :
    baseRate v f t ≤ baseRate v f t' := by
  unfold baseRate
  split_ifs with h1 h2
  · exact mul_le_mul_of_nonneg_right
      (div_le_div_of_nonneg_right h (maxCast_pos v).le) (by norm_num)
  · exact mul_le_mul_of_nonneg_right
      (div_le_div_of_nonneg_right h (maxCast_pos f).le) (by norm_num)
  · exact h

theorem baseRate_nonneg (v f : ℕ) {t : ℚ} (h0 : 0 ≤ t) :
    0 ≤ baseRate v f t := by
  unfold baseRate
  split_ifs with h1 h2
  · exact mul_nonneg (div_nonneg h0 (maxCast_pos v).le) (by norm_num)
  · exact mul_nonneg (div_nonneg h0 (maxCast_pos f).le) (by norm_num)
  · exact h0

theorem scoreOfTotal_mono (v f : ℕ) {t t' : ℚ} (h0 : 0 ≤ t) (h : t ≤ t') :
    scoreOfTotal v f t ≤ scoreOfTotal v f t' := by
  unfold scoreOfTotal
  apply round2_mono
  have hmono : baseRate v f t ≤ baseRate v f t' := baseRate_mono v f h
  have hnn' : 0 ≤ baseRate v f t' := baseRate_nonneg v f (le_trans h0 h)
  have hbonus :
      (if 100 < t then baseRate v f t * 1.2 else baseRate v f t) ≤
        (if 100 < t' then baseRate v f t' * 1.2 else baseRate v f t') := by
    split_ifs with hb1 hb2 hb2
    · norm_num at hmono ⊢; linarith
    · exact absurd (lt_of_lt_of_le hb1 h) hb2
    · norm_num at hnn' ⊢; nlinarith
    · exact hmono
  exact max_le_max hbonus (mul_le_mul_of_nonneg_right h (by norm_num))

/-- Claim C1: the implemented engagement score coincides with the spec's
reference algorithm on all non-negative integer inputs, is never negative,
and yields exactly 0 on all-zero metrics. -/
theorem engagement_score_matches_spec (l c s v f : ℕ) :
    calculate_engagement_score l c s v f = engagement_score_specref l c s v f ∧
    0 ≤ calculate_engagement_score l c s v f ∧
    calculate_engagement_score 0 0 0 0 0 = 0 := by
  refine ⟨?_, ?_, by norm_num [calculate_engagement_score, round2]⟩
  · unfold calculate_engagement_score engagement_score_specref
    have hv : ∀ (n : ℕ), 0 < n → ((max n 1 : ℕ) : ℚ) = (n : ℚ) := by
      intro n hn
      exact_mod_cast congrArg (Nat.cast : ℕ → ℚ) (Nat.max_eq_left hn)
    rcases Nat.eq_zero_or_pos v with hv0 | hv1
    · rcases Nat.eq_zero_or_pos f with hf0 | hf1
      · simp [hv0, hf0]
      · simp [hv0, hf1, hv f hf1, div_mul_eq_mul_div]
    · simp [hv1, hv v hv1, div_mul_eq_mul_div]
  · rw [calculate_eq_scoreOfTotal]
    unfold scoreOfTotal
    apply round2_nonneg
    have ht : (0 : ℚ) ≤ (l : ℚ) + (c : ℚ) * 5 + (s : ℚ) * 10 := by positivity
    refine le_trans ?_ (le_max_right _ _)
    nlinarith

/-- Claim C9: the engagement score is non-decreasing in likes, comments and
shares, the other fields held fixed. -/
theorem engagement_score_monotone (l c s v f d : ℕ) :
    calculate_engagement_score l c s v f ≤ calculate_engagement_score (l + d) c s v f ∧
    calculate_engagement_score l c s v f ≤ calculate_engagement_score l (c + d) s v f ∧
    calculate_engagement_score l c s v f ≤ calculate_engagement_score l c (s + d) v f := by
  refine ⟨?_, ?_, ?_⟩ <;>
  · rw [calculate_eq_scoreOfTotal, calculate_eq_scoreOfTotal]
    apply scoreOfTotal_mono v f (by positivity)
    push_cast
    nlinarith [Nat.cast_nonneg (α := ℚ) d]

/-! ### Extraction cascade (`_extract_with_multiple_strategies`) -/

/-- Outcome of one extraction strategy on a URL: `Except.error` models a
raised exception (caught by the cascade), `Except.ok none` a `None` return,
`Except.ok (some s)` returned text `s`. -/
abbrev StrategyOutcome := Except Unit (Option String)

/-- The cascade loop body: walk the strategy outcomes in order, returning
the first returned text that is non-empty and longer than 300 characters,
treating exceptions as failures, and `none` when the list is exhausted. -/
def runStrategies : List StrategyOutcome → Option String
  | [] => none
  | r :: rest =>
    match r with
    | Except.error _ => runStrategies rest
    | Except.ok none => runStrategies rest
    | Except.ok (some content) =>
      if content ≠ "" ∧ 300 < content.length then some content
      else runStrategies rest

/-- Embedding of `_extract_with_multiple_strategies(url)`: the four
strategies (Jina Reader, Trafilatura, Readability, BeautifulSoup) are tried
in this fixed order on the URL. -/
def extract_with_multiple_strategies
    (jina trafilatura readability beautifulsoup : String → StrategyOutcome)
    (url : String) : Option String :=
  runStrategies [jina url, trafilatura url, readability url, beautifulsoup url]

/-- A strategy outcome that the cascade skips: an exception, a `None`, or
text not strictly longer than 300 characters. -/
def strategyFails : StrategyOutcome → Bool
  | Except.error _ => true
  | Except.ok none => true
  | Except.ok (some c) => !(decide (c ≠ "") && decide (300 < c.length))

theorem runStrategies_skip {r : StrategyOutcome} (h : strategyFails r = true)
    (rest : List StrategyOutcome) :
    runStrategies (r :: rest) = runStrategies rest := by
  match r with
  | Except.error _ => rfl
  | Except.ok none => rfl
  | Except.ok (some c) =>
    simp only [strategyFails, Bool.not_eq_true', Bool.and_eq_false_iff,
      decide_eq_false_iff_not, not_not, Nat.not_lt] at h
    have hcond : ¬(c ≠ "" ∧ 300 < c.length) := by
      rintro ⟨hne, hlen⟩
      rcases h with h | h
      · exact hne h
      · exact absurd hlen (Nat.not_lt.mpr h)
    simp [runStrategies, hcond]

/-- Claim C2 (amended): the cascade returns the output of the first strategy
whose text is strictly longer than 300 characters, regardless of what any
later strategy would do, and returns `None` (without an exception) when
every strategy throws, returns `None`, or returns text of at most 300
characters. -/
theorem extraction_cascade_first_success :
    (∀ (jina trafilatura readability beautifulsoup : String → StrategyOutcome)
      (url : String),
      extract_with_multiple_strategies jina trafilatura readability
        beautifulsoup url =
        runStrategies [jina url, trafilatura url, readability url,
          beautifulsoup url]) ∧
    (∀ (pre post : List StrategyOutcome) (c : String),
      (∀ r ∈ pre, strategyFails r = true) → 300 < c.length →
      runStrategies (pre ++ Except.ok (some c) :: post) = some c) ∧
    (∀ rs : List StrategyOutcome, (∀ r ∈ rs, strategyFails r = true) →
      runStrategies rs = none) := by
  refine ⟨fun _ _ _ _ _ => rfl, ?_, ?_⟩
  · intro pre post c hpre hlen
    induction pre with
    | nil =>
      have hne : c ≠ "" := by
        intro h
        rw [h] at hlen
        exact absurd hlen (by decide)
      simp [runStrategies, hne, hlen]
    | cons r pre ih =>
      rw [List.cons_append,
        runStrategies_skip (hpre r (List.mem_cons_self r pre)) _]
      exact ih fun r hr => hpre r (List.mem_cons_of_mem _ hr)
  · intro rs hrs
    induction rs with
    | nil => rfl
    | cons r rest ih =>
      rw [runStrategies_skip (hrs r (List.mem_cons_self r rest)) _]
      exact ih fun r hr => hrs r (List.mem_cons_of_mem _ hr)

/-- Claim C2, counterexample to the stated threshold: a strategy returning
exactly 300 characters does not clear the cascade's strictly-greater-than
check, so the cascade returns `none` although the claim ("length at least
300") requires that output to be returned. -/
theorem extraction_cascade_at_300_counterexample :
    (String.mk (List.replicate 300 'a')).length = 300 ∧
    extract_with_multiple_strategies
      (fun _ => Except.ok (some (String.mk (List.replicate 300 'a'))))
      (fun _ => Except.ok none) (fun _ => Except.ok none)
      (fun _ => Except.ok none) "https://example.com" = none := by
  have hlen : (String.mk (List.replicate 300 'a')).length = 300 := by
    rw [String.length_mk, List.length_replicate]
  refine ⟨hlen, ?_⟩
  show runStrategies
    [Except.ok (some (String.mk (List.replicate 300 'a'))),
      Except.ok none, Except.ok none, Except.ok none] = none
  have hf : strategyFails
      (Except.ok (some (String.mk (List.replicate 300 'a')))) = true := by
    show (!(decide (String.mk (List.replicate 300 'a') ≠ "") &&
      decide (300 < (String.mk (List.replicate 300 'a')).length))) = true
    rw [String.length_mk, List.length_replicate]
    rfl
  have hnone : strategyFails (Except.ok none) = true := rfl
  rw [runStrategies_skip hf, runStrategies_skip hnone,
    runStrategies_skip hnone, runStrategies_skip hnone]
  rfl

/-- Witness for the amended cascade claim at concrete inputs: a throwing
first strategy followed by a 301-character success is returned even with a
further strategy pending, and an all-failing list yields `none`. -/
theorem extraction_cascade_first_success_witness :
    runStrategies [Except.error (),
      Except.ok (some (String.mk (List.replicate 301 'a'))),
      Except.ok (some "tail")] =
      some (String.mk (List.replicate 301 'a')) ∧
    runStrategies [Except.error (), Except.ok none] = none := by
  constructor
  · exact extraction_cascade_first_success.2.1 [Except.error ()]
      [Except.ok (some "tail")] (String.mk (List.replicate 301 'a'))
      (by intro r hr; simp at hr; rw [hr]; rfl)
      (by rw [String.length_mk, List.length_replicate]; norm_num)
  · exact extraction_cascade_first_success.2.2 _
      (by intro r hr; simp at hr; rcases hr with h | h <;> (rw [h]; rfl))

/-! ### Credential rotation (`_get_next_api_key`) -/

/-- The `f"{service}_{index}"` identifier used for the failed-API set. -/
def apiIdentifier (service : String) (i : ℕ) : String :=
  service ++ "_" ++ toString i

/-- The per-service slice of the rotator's mutable state: the configured
keys, the `current_api_index` cursor and the `failed_apis` set (as the list
of its identifier strings). -/
structure ApiRotationState where
  apiKeys : List String
  currentApiIndex : ℕ
  failedApis : List String

/-- One `for attempt in range(len(keys))` loop of `_get_next_api_key`,
with the remaining attempts as fuel: skip quarantined indices, advancing
the cursor mod `len(keys)`; on a free index return its key and the advanced
cursor. Returns the final cursor alongside the optional key. -/
def get_next_aux (service : String) (keys failed : List String) :
    ℕ → ℕ → Option String × ℕ
  | idx, 0 => (none, idx)
  | idx, fuel + 1 =>
    if apiIdentifier service idx ∈ failed then
      get_next_aux service keys failed ((idx + 1) % keys.length) fuel
    else (some (keys.getD idx ""), (idx + 1) % keys.length)

/-- Embedding of `_get_next_api_key(service)` on the per-service state. -/
def get_next_api_key (service : String) (s : ApiRotationState) :
    Option String × ApiRotationState :=
  if s.apiKeys.isEmpty then (none, s)
  else
    let r := get_next_aux service s.apiKeys s.failedApis s.currentApiIndex
      s.apiKeys.length
    (r.1, { s with currentApiIndex := r.2 })

theorem get_next_aux_all_failed (service : String) (keys failed : List String) :
    ∀ (fuel idx : ℕ), idx < keys.length →
    (∀ t < fuel, apiIdentifier service ((idx + t) % keys.length) ∈ failed) →
    get_next_aux service keys failed idx fuel =
      (none, (idx + fuel) % keys.length)
  | 0, idx, hidx, _ => by
    simp [get_next_aux, Nat.mod_eq_of_lt hidx]
  | fuel + 1, idx, hidx, hall => by
    have h0 : apiIdentifier service idx ∈ failed := by
      have := hall 0 (Nat.succ_pos fuel)
      simpa [Nat.mod_eq_of_lt hidx] using this
    have hn : 0 < keys.length := Nat.lt_of_le_of_lt (Nat.zero_le idx) hidx
    have hidx' : (idx + 1) % keys.length < keys.length := Nat.mod_lt _ hn
    have hall' : ∀ t < fuel,
        apiIdentifier service (((idx + 1) % keys.length + t) % keys.length)
          ∈ failed := by
      intro t ht
      have : ((idx + 1) % keys.length + t) % keys.length =
          (idx + (t + 1)) % keys.length := by
        rw [Nat.mod_add_mod]
        congr 1
        omega
      rw [this]
      exact hall (t + 1) (by omega)
    have ih := get_next_aux_all_failed service keys failed fuel
      ((idx + 1) % keys.length) hidx' hall'
    rw [get_next_aux, if_pos h0, ih, Nat.mod_add_mod]
    have harith : idx + 1 + fuel = idx + (fuel + 1) := by omega
    rw [harith]

theorem get_next_aux_first_free (service : String) (keys failed : List String) :
    ∀ (fuel t0 idx : ℕ), idx < keys.length → t0 < fuel →
    apiIdentifier service ((idx + t0) % keys.length) ∉ failed →
    (∀ t < t0, apiIdentifier service ((idx + t) % keys.length) ∈ failed) →
    get_next_aux service keys failed idx fuel =
      (some (keys.getD ((idx + t0) % keys.length) ""),
        ((idx + t0) % keys.length + 1) % keys.length)
  | 0, t0, idx, _, ht0, _, _ => absurd ht0 (Nat.not_lt_zero t0)
  | fuel + 1, 0, idx, hidx, _, hfree, _ => by
    have hm : (idx + 0) % keys.length = idx := by
      rw [Nat.add_zero, Nat.mod_eq_of_lt hidx]
    rw [hm] at hfree ⊢
    rw [get_next_aux, if_neg hfree]
  | fuel + 1, t0 + 1, idx, hidx, ht0, hfree, hbefore => by
    have h0 : apiIdentifier service idx ∈ failed := by
      have := hbefore 0 (Nat.succ_pos t0)
      simpa [Nat.mod_eq_of_lt hidx] using this
    have hn : 0 < keys.length := Nat.lt_of_le_of_lt (Nat.zero_le idx) hidx
    have hidx' : (idx + 1) % keys.length < keys.length := Nat.mod_lt _ hn
    have hshift : ∀ u : ℕ, ((idx + 1) % keys.length + u) % keys.length =
        (idx + (u + 1)) % keys.length := by
      intro u
      rw [Nat.mod_add_mod]
      congr 1
      omega
    have hfree' : apiIdentifier service
        (((idx + 1) % keys.length + t0) % keys.length) ∉ failed := by
      rw [hshift t0]
      exact hfree
    have hbefore' : ∀ t < t0, apiIdentifier service
        (((idx + 1) % keys.length + t) % keys.length) ∈ failed := by
      intro t ht
      rw [hshift t]
      exact hbefore (t + 1) (by omega)
    have ih := get_next_aux_first_free service keys failed fuel t0
      ((idx + 1) % keys.length) hidx' (by omega) hfree' hbefore'
    rw [get_next_aux, if_pos h0, ih, hshift t0]

theorem apiKeys_isEmpty_false {s : ApiRotationState}
    (hn : 0 < s.apiKeys.length) : s.apiKeys.isEmpty = false := by
  cases h : s.apiKeys with
  | nil => rw [h] at hn; exact absurd hn (by simp)
  | cons a l => rfl

theorem get_next_api_key_all_failed (service : String) (s : ApiRotationState)
    (hidx : s.currentApiIndex < s.apiKeys.length)
    (hall : ∀ i < s.apiKeys.length, apiIdentifier service i ∈ s.failedApis) :
    get_next_api_key service s = (none, s) := by
  have hn : 0 < s.apiKeys.length := lt_of_le_of_lt (Nat.zero_le _) hidx
  have haux := get_next_aux_all_failed service s.apiKeys s.failedApis
    s.apiKeys.length s.currentApiIndex hidx
    (fun t _ => hall _ (Nat.mod_lt _ hn))
  simp only [get_next_api_key, apiKeys_isEmpty_false hn, Bool.false_eq_true,
    if_false, haux]
  rw [Nat.add_mod_right, Nat.mod_eq_of_lt hidx]

theorem get_next_api_key_first_free (service : String) (s : ApiRotationState)
    (t0 : ℕ) (hidx : s.currentApiIndex < s.apiKeys.length)
    (ht0 : t0 < s.apiKeys.length)
    (hfree : apiIdentifier service
      ((s.currentApiIndex + t0) % s.apiKeys.length) ∉ s.failedApis)
    (hbefore : ∀ t < t0, apiIdentifier service
      ((s.currentApiIndex + t) % s.apiKeys.length) ∈ s.failedApis) :
    get_next_api_key service s =
      (some (s.apiKeys.getD ((s.currentApiIndex + t0) % s.apiKeys.length) ""),
        { s with currentApiIndex :=
          ((s.currentApiIndex + t0) % s.apiKeys.length + 1) %
            s.apiKeys.length }) := by
  have hn : 0 < s.apiKeys.length := lt_of_le_of_lt (Nat.zero_le _) hidx
  have haux := get_next_aux_first_free service s.apiKeys s.failedApis
    s.apiKeys.length t0 s.currentApiIndex hidx ht0 hfree hbefore
  simp only [get_next_api_key, apiKeys_isEmpty_false hn, Bool.false_eq_true,
    if_false, haux]

theorem rotation_reach (n idx : ℕ) (hidx : idx < n) :
    ∀ i < n, ∃ t < n, (idx + t) % n = i := by
  intro i hi
  by_cases hle : idx ≤ i
  · refine ⟨i - idx, by omega, ?_⟩
    have h1 : idx + (i - idx) = i := by omega
    rw [h1, Nat.mod_eq_of_lt hi]
  · refine ⟨i + n - idx, by omega, ?_⟩
    have h1 : idx + (i + n - idx) = i + n := by omega
    rw [h1, Nat.add_mod_right, Nat.mod_eq_of_lt hi]

theorem get_next_api_key_some_of_free (service : String)
    (s : ApiRotationState) (i : ℕ)
    (hidx : s.currentApiIndex < s.apiKeys.length) (hi : i < s.apiKeys.length)
    (hfree : apiIdentifier service i ∉ s.failedApis) :
    ∃ t0 < s.apiKeys.length,
      apiIdentifier service
        ((s.currentApiIndex + t0) % s.apiKeys.length) ∉ s.failedApis ∧
      (∀ t < t0, apiIdentifier service
        ((s.currentApiIndex + t) % s.apiKeys.length) ∈ s.failedApis) := by
  obtain ⟨t, ht, hteq⟩ := rotation_reach s.apiKeys.length s.currentApiIndex
    hidx i hi
  have hex : ∃ u, apiIdentifier service
      ((s.currentApiIndex + u) % s.apiKeys.length) ∉ s.failedApis :=
    ⟨t, by rw [hteq]; exact hfree⟩
  refine ⟨Nat.find hex, ?_, Nat.find_spec hex, ?_⟩
  · exact lt_of_le_of_lt (Nat.find_le (by rw [hteq]; exact hfree)) ht
  · intro u hu
    have := Nat.find_min hex hu
    simpa using this

/-- Claim C3: `_get_next_api_key` walks the provider's credential list
round-robin from the cursor (which sits just past the last-returned index),
skipping quarantined identifiers; it returns `None` exactly when the
provider has no keys or every index is quarantined, and with all-but-one
index quarantined every call returns the sole survivor. -/
theorem get_next_api_key_round_robin (service : String)
    (s : ApiRotationState) :
    (s.apiKeys = [] → get_next_api_key service s = (none, s)) ∧
    (s.currentApiIndex < s.apiKeys.length →
      (∀ i < s.apiKeys.length, apiIdentifier service i ∈ s.failedApis) →
      get_next_api_key service s = (none, s)) ∧
    (∀ t0, s.currentApiIndex < s.apiKeys.length → t0 < s.apiKeys.length →
      apiIdentifier service
        ((s.currentApiIndex + t0) % s.apiKeys.length) ∉ s.failedApis →
      (∀ t < t0, apiIdentifier service
        ((s.currentApiIndex + t) % s.apiKeys.length) ∈ s.failedApis) →
      get_next_api_key service s =
        (some (s.apiKeys.getD
          ((s.currentApiIndex + t0) % s.apiKeys.length) ""),
          { s with currentApiIndex :=
            ((s.currentApiIndex + t0) % s.apiKeys.length + 1) %
              s.apiKeys.length })) ∧
    (s.currentApiIndex < s.apiKeys.length →
      (get_next_api_key service s).1 = none →
      s.apiKeys = [] ∨
        ∀ i < s.apiKeys.length, apiIdentifier service i ∈ s.failedApis) ∧
    (∀ j, s.currentApiIndex < s.apiKeys.length → j < s.apiKeys.length →
      apiIdentifier service j ∉ s.failedApis →
      (∀ i < s.apiKeys.length, i ≠ j →
        apiIdentifier service i ∈ s.failedApis) →
      (get_next_api_key service s).1 = some (s.apiKeys.getD j "") ∧
      (get_next_api_key service
        (get_next_api_key service s).2).1 = some (s.apiKeys.getD j "")) := by
  have hsingle : ∀ (s' : ApiRotationState) (j : ℕ),
      s'.apiKeys = s.apiKeys → s'.failedApis = s.failedApis →
      s'.currentApiIndex < s'.apiKeys.length → j < s'.apiKeys.length →
      apiIdentifier service j ∉ s'.failedApis →
      (∀ i < s'.apiKeys.length, i ≠ j →
        apiIdentifier service i ∈ s'.failedApis) →
      get_next_api_key service s' =
        (some (s'.apiKeys.getD j ""),
          { s' with currentApiIndex := (j + 1) % s'.apiKeys.length }) := by
    intro s' j _ _ hidx hj hfree hother
    obtain ⟨t0, ht0, hfree0, hbefore0⟩ :=
      get_next_api_key_some_of_free service s' j hidx hj hfree
    have hn : 0 < s'.apiKeys.length := lt_of_le_of_lt (Nat.zero_le _) hidx
    have hj0 : (s'.currentApiIndex + t0) % s'.apiKeys.length = j := by
      by_contra hne
      exact hfree0 (hother _ (Nat.mod_lt _ hn) hne)
    have := get_next_api_key_first_free service s' t0 hidx ht0 hfree0 hbefore0
    rw [hj0] at this
    exact this
  refine ⟨?_, ?_, ?_, ?_, ?_⟩
  · intro h
    simp [get_next_api_key, h]
  · intro hidx hall
    exact get_next_api_key_all_failed service s hidx hall
  · intro t0 hidx ht0 hfree hbefore
    exact get_next_api_key_first_free service s t0 hidx ht0 hfree hbefore
  · intro hidx hnone
    by_contra hcon
    push_neg at hcon
    obtain ⟨-, i, hi, hfree⟩ := hcon
    obtain ⟨t0, ht0, hfree0, hbefore0⟩ :=
      get_next_api_key_some_of_free service s i hidx hi hfree
    have := get_next_api_key_first_free service s t0 hidx ht0 hfree0 hbefore0
    rw [this] at hnone
    exact Option.noConfusion hnone
  · intro j hidx hj hfree hother
    have h1 := hsingle s j rfl rfl hidx hj hfree hother
    have hn : 0 < s.apiKeys.length := lt_of_le_of_lt (Nat.zero_le _) hidx
    constructor
    · rw [h1]
    · rw [h1]
      have h2 := hsingle
        { s with currentApiIndex := (j + 1) % s.apiKeys.length } j rfl rfl
        (Nat.mod_lt _ hn) hj hfree hother
      rw [h2]

/-- Witness for the round-robin claim: with keys `k1 k2 k3`, cursor `0` and
indices 0 and 2 quarantined, two successive calls both return the sole
survivor `k2`. -/
theorem get_next_api_key_round_robin_witness :
    (get_next_api_key "serper"
      ⟨["k1", "k2", "k3"], 0, ["serper_0", "serper_2"]⟩).1 = some "k2" ∧
    (get_next_api_key "serper"
      (get_next_api_key "serper"
        ⟨["k1", "k2", "k3"], 0, ["serper_0", "serper_2"]⟩).2).1 =
      some "k2" := by
  have h := (get_next_api_key_round_robin "serper"
    ⟨["k1", "k2", "k3"], 0, ["serper_0", "serper_2"]⟩).2.2.2.2 1
    (by decide) (by decide) (by decide) (by decide)
  exact h

/-! ### Quarantine expiry (`_mark_api_failed` and its timer thread) -/

/-- State for the quarantine mechanism: the configured keys, the
`failed_apis` set, and the pending `clear_failure` timers spawned by
`_mark_api_failed`, each with the absolute time (`now + 300` seconds) at
which it fires. -/
structure QuarantineState where
  apiKeys : List String
  failedApis : List String
  pendingClears : List (String × ℕ)

/-- Embedding of `_mark_api_failed(service, index)` called at time `now`:
add the identifier to the `failed_apis` set and schedule a `clear_failure`
timer for 300 seconds later. -/
def mark_api_failed (s : QuarantineState) (service : String)
    (index now : ℕ) : QuarantineState :=
  { s with
    failedApis :=
      if apiIdentifier service index ∈ s.failedApis then s.failedApis
      else s.failedApis ++ [apiIdentifier service index],
    pendingClears :=
      s.pendingClears ++ [(apiIdentifier service index, now + 300)] }

/-- Advance the fake clock to time `t`: every pending `clear_failure` timer
whose fire time has been reached removes its identifier from `failed_apis`
(if still present) and disappears. -/
def advance_to (s : QuarantineState) (t : ℕ) : QuarantineState :=
  { s with
    failedApis := s.failedApis.filter
      (fun id => !(s.pendingClears.any fun p => p.1 == id && decide (p.2 ≤ t))),
    pendingClears := s.pendingClears.filter fun p => !decide (p.2 ≤ t) }

/-- Claim C5: a credential quarantined by a failure report at time `now` is
quarantined immediately, is still quarantined at any time before `now+300`
(when no older timer for it is pending), is released by the scheduled timer
at any time from `now+300` on without any further `next` call, and the
credential list itself is never touched, so quarantine is always
recoverable. -/
theorem quarantine_expiry (s : QuarantineState) (service : String)
    (index now : ℕ) :
    apiIdentifier service index ∈
      (mark_api_failed s service index now).failedApis ∧
    (∀ t, now + 300 ≤ t →
      apiIdentifier service index ∉
        (advance_to (mark_api_failed s service index now) t).failedApis) ∧
    (∀ t, t < now + 300 →
      (∀ p ∈ s.pendingClears, p.1 ≠ apiIdentifier service index) →
      apiIdentifier service index ∈
        (advance_to (mark_api_failed s service index now) t).failedApis) ∧
    (∀ t, (advance_to (mark_api_failed s service index now) t).apiKeys =
      s.apiKeys) := by
  set id := apiIdentifier service index with hid
  have hmem : id ∈ (mark_api_failed s service index now).failedApis := by
    simp only [mark_api_failed]
    split_ifs with h
    · exact h
    · exact List.mem_append_right _ (List.mem_singleton.mpr rfl)
  refine ⟨hmem, ?_, ?_, fun _ => rfl⟩
  · intro t ht
    simp only [advance_to, List.mem_filter]
    rintro ⟨-, hkeep⟩
    have : ((mark_api_failed s service index now).pendingClears.any
        fun p => p.1 == id && decide (p.2 ≤ t)) = true := by
      refine List.any_eq_true.mpr ⟨(id, now + 300), ?_, ?_⟩
      · exact List.mem_append_right _ (List.mem_singleton.mpr rfl)
      · simp [ht]
    rw [this] at hkeep
    exact Bool.noConfusion hkeep
  · intro t ht hclean
    simp only [advance_to, List.mem_filter]
    refine ⟨hmem, ?_⟩
    have : ((mark_api_failed s service index now).pendingClears.any
        fun p => p.1 == id && decide (p.2 ≤ t)) = false := by
      rw [List.any_eq_false]
      intro p hp
      simp only [mark_api_failed, List.mem_append] at hp
      rcases hp with hp | hp
      · simp [hclean p hp]
      · rw [List.mem_singleton.mp hp]
        simp
        omega
    rw [this]
    rfl

/-- Witness for the quarantine claim at a concrete state: a failure of
`apify` key 0 reported at time 0 is quarantined at once, still quarantined
when the clock reaches 299, and released at 300, with the key list
untouched. -/
theorem quarantine_expiry_witness :
    "apify_0" ∈
      (mark_api_failed ⟨["k1"], [], []⟩ "apify" 0 0).failedApis ∧
    "apify_0" ∉
      (advance_to (mark_api_failed ⟨["k1"], [], []⟩ "apify" 0 0)
        300).failedApis ∧
    "apify_0" ∈
      (advance_to (mark_api_failed ⟨["k1"], [], []⟩ "apify" 0 0)
        299).failedApis ∧
    (advance_to (mark_api_failed ⟨["k1"], [], []⟩ "apify" 0 0)
        300).apiKeys = ["k1"] := by
  have h := quarantine_expiry ⟨["k1"], [], []⟩ "apify" 0 0
  exact ⟨h.1, h.2.1 300 (by norm_num), h.2.2.1 299 (by norm_num)
    (by intro p hp; exact absurd hp (List.not_mem_nil p)),
    h.2.2.2 300⟩

/-! ### Social-result deduplication (`search_images` tail, `_is_valid_social_url`) -/

/-- Pattern-prefix test on character lists. -/
def isPrefixOfL : List Char → List Char → Bool
  | [], _ => true
  | _ :: _, [] => false
  | p :: ps, c :: cs => p == c && isPrefixOfL ps cs

/-- Substring containment on character lists, modelling `re.search` of a
literal pattern. -/
def containsL (pat : List Char) : List Char → Bool
  | [] => isPrefixOfL pat []
  | c :: rest => isPrefixOfL pat (c :: rest) || containsL pat rest

/-- After a fixed prefix, at least one non-newline character followed by an
occurrence of `p2`, modelling the regex fragment `.+p2`. -/
def midSearch (p2 : List Char) : List Char → Bool
  | [] => false
  | c :: rest => c != '\x0a' && (isPrefixOfL p2 rest || midSearch p2 rest)

/-- `re.search(p1 + ".+" + p2, s)` for literal `p1`, `p2`. -/
def searchMid (p1 p2 : List Char) : List Char → Bool
  | [] => false
  | c :: rest =>
    (isPrefixOfL p1 (c :: rest) &&
      midSearch p2 (List.drop (p1.length - 1) rest)) ||
    searchMid p1 p2 rest

/-- At least one non-`/` character, then a final `/` (optionally before a
trailing newline, which `$` also accepts), modelling `[^/]+/$`. -/
def noSlashThenSlashEnd : List Char → Bool
  | [] => false
  | c :: rest =>
    c != '/' && (rest == ['/'] || rest == ['/', '\x0a'] ||
      noSlashThenSlashEnd rest)

/-- `re.search(r"instagram\.com/[^/]+/$", s)`. -/
def instaProfile : List Char → Bool
  | [] => false
  | c :: rest =>
    (isPrefixOfL ("instagram.com/".data) (c :: rest) &&
      noSlashThenSlashEnd (List.drop 13 rest)) ||
    instaProfile rest

/-- Embedding of `_is_valid_social_url(url)`: true when any of the six
social-URL regex patterns matches somewhere in the URL. -/
def is_valid_social_url (url : String) : Bool :=
  containsL ("instagram.com/p/".data) url.data ||
  containsL ("instagram.com/reel/".data) url.data ||
  searchMid ("facebook.com/".data) ("/posts/".data) url.data ||
  searchMid ("facebook.com/".data) ("/photos/".data) url.data ||
  containsL ("m.facebook.com/".data) url.data ||
  containsL ("youtube.com/watch".data) url.data ||
  instaProfile url.data

/-- A raw search result: its `page_url` field and an opaque payload
standing for the remaining fields of the result dict. -/
structure RawResult where
  page_url : String
  payload : ℕ

/-- The dedupe key of a result: its stripped `page_url`. -/
def resultKey (r : RawResult) : String := r.page_url.trim

/-- The dedupe loop at the end of `search_images`, with `seen` the
`seen_urls` set accumulated so far: keep a result when its stripped
`page_url` is non-empty, unseen, and a valid social URL. -/
def dedupeAux (seen : List String) : List RawResult → List RawResult
  | [] => []
  | r :: rest =>
    if resultKey r ≠ "" ∧ resultKey r ∉ seen ∧ is_valid_social_url (resultKey r) then
      r :: dedupeAux (resultKey r :: seen) rest
    else dedupeAux seen rest

/-- Embedding of the `seen_urls`/`unique_results` dedupe pass of
`search_images`. -/
def search_images_dedupe (results : List RawResult) : List RawResult :=
  dedupeAux [] results

/-- Reference formulation of the claimed behaviour: walk the list keeping a
result exactly when its key is valid and has not occurred earlier in the
list (`prevKeys` collects the keys of all earlier results). -/
def keepFirstValid (prevKeys : List String) : List RawResult → List RawResult
  | [] => []
  | r :: rest =>
    if (resultKey r ≠ "" ∧ is_valid_social_url (resultKey r)) ∧
        resultKey r ∉ prevKeys then
      r :: keepFirstValid (resultKey r :: prevKeys) rest
    else keepFirstValid (resultKey r :: prevKeys) rest

theorem dedupeAux_sublist : ∀ (xs : List RawResult) (seen : List String),
    List.Sublist (dedupeAux seen xs) xs
  | [], _ => List.Sublist.refl []
  | r :: rest, seen => by
    rw [dedupeAux]
    split_ifs with h
    · exact List.Sublist.cons₂ r (dedupeAux_sublist rest (resultKey r :: seen))
    · exact List.Sublist.cons r (dedupeAux_sublist rest seen)

theorem dedupeAux_eq_keepFirstValid :
    ∀ (xs : List RawResult) (seen prev : List String),
    (∀ k, k ∈ seen ↔ (k ≠ "" ∧ is_valid_social_url k = true) ∧ k ∈ prev) →
    dedupeAux seen xs = keepFirstValid prev xs
  | [], _, _, _ => rfl
  | r :: rest, seen, prev, hinv => by
    rw [dedupeAux, keepFirstValid]
    by_cases hval : resultKey r ≠ "" ∧ is_valid_social_url (resultKey r) = true
    · by_cases hprev : resultKey r ∈ prev
      · have hseen : resultKey r ∈ seen := (hinv _).mpr ⟨hval, hprev⟩
        rw [if_neg (by tauto), if_neg (by tauto)]
        apply dedupeAux_eq_keepFirstValid rest seen (resultKey r :: prev)
        intro k
        rw [hinv k]
        constructor
        · rintro ⟨hk, hkp⟩
          exact ⟨hk, List.mem_cons_of_mem _ hkp⟩
        · rintro ⟨hk, hkp⟩
          rcases List.mem_cons.mp hkp with h | h
          · exact ⟨hk, h ▸ hprev⟩
          · exact ⟨hk, h⟩
      · have hseen : resultKey r ∉ seen := fun h => hprev ((hinv _).mp h).2
        rw [if_pos ⟨hval.1, hseen, hval.2⟩, if_pos ⟨hval, hprev⟩]
        congr 1
        apply dedupeAux_eq_keepFirstValid rest (resultKey r :: seen)
          (resultKey r :: prev)
        intro k
        constructor
        · intro hk
          rcases List.mem_cons.mp hk with h | h
          · exact ⟨h ▸ hval, h ▸ List.mem_cons_self _ _⟩
          · obtain ⟨hk1, hk2⟩ := (hinv k).mp h
            exact ⟨hk1, List.mem_cons_of_mem _ hk2⟩
        · rintro ⟨hk1, hk2⟩
          rcases List.mem_cons.mp hk2 with h | h
          · exact h ▸ List.mem_cons_self _ _
          · exact List.mem_cons_of_mem _ ((hinv k).mpr ⟨hk1, h⟩)
    · have hseen : resultKey r ∉ seen := fun h => hval ((hinv _).mp h).1
      rw [if_neg (by tauto), if_neg (by tauto)]
      apply dedupeAux_eq_keepFirstValid rest seen (resultKey r :: prev)
      intro k
      rw [hinv k]
      constructor
      · rintro ⟨hk, hkp⟩
        exact ⟨hk, List.mem_cons_of_mem _ hkp⟩
      · rintro ⟨hk, hkp⟩
        rcases List.mem_cons.mp hkp with h | h
        · exact absurd (h ▸ hk) hval
        · exact ⟨hk, h⟩

theorem dedupeAux_invariant : ∀ (xs : List RawResult) (seen : List String),
    (∀ r ∈ dedupeAux seen xs,
      (resultKey r ≠ "" ∧ is_valid_social_url (resultKey r) = true) ∧
        resultKey r ∉ seen) ∧
    List.Pairwise (fun a b => resultKey a ≠ resultKey b) (dedupeAux seen xs)
  | [], _ => ⟨fun r hr => absurd hr (List.not_mem_nil r), List.Pairwise.nil⟩
  | r :: rest, seen => by
    rw [dedupeAux]
    split_ifs with h
    · obtain ⟨hcond1, hcond2, hcond3⟩ := h
      obtain ⟨ihmem, ihpw⟩ := dedupeAux_invariant rest (resultKey r :: seen)
      constructor
      · intro x hx
        rcases List.mem_cons.mp hx with hx | hx
        · exact hx ▸ ⟨⟨hcond1, hcond3⟩, hcond2⟩
        · obtain ⟨hx1, hx2⟩ := ihmem x hx
          exact ⟨hx1, fun hc => hx2 (List.mem_cons_of_mem _ hc)⟩
      · refine List.Pairwise.cons ?_ ihpw
        intro x hx
        have := (ihmem x hx).2
        intro hc
        exact this (hc ▸ List.mem_cons_self _ _)
    · exact dedupeAux_invariant rest seen

theorem dedupeAux_fixed : ∀ (xs : List RawResult) (seen : List String),
    (∀ r ∈ xs,
      ((resultKey r ≠ "" ∧ is_valid_social_url (resultKey r) = true) ∧
        resultKey r ∉ seen)) →
    List.Pairwise (fun a b => resultKey a ≠ resultKey b) xs →
    dedupeAux seen xs = xs
  | [], _, _, _ => rfl
  | r :: rest, seen, hmem, hpw => by
    obtain ⟨⟨h1, h3⟩, h2⟩ := hmem r (List.mem_cons_self r rest)
    rw [dedupeAux, if_pos ⟨h1, h2, h3⟩]
    congr 1
    apply dedupeAux_fixed rest (resultKey r :: seen)
    · intro x hx
      obtain ⟨hx1, hx2⟩ := hmem x (List.mem_cons_of_mem _ hx)
      refine ⟨hx1, ?_⟩
      intro hc
      rcases List.mem_cons.mp hc with hc | hc
      · exact List.rel_of_pairwise_cons hpw hx hc.symm
      · exact hx2 hc
    · exact hpw.tail

/-- Claim C6: the dedupe pass is idempotent, never lengthens the list, is a
sublist of its input (so kept results stay in original relative order), and
keeps a result exactly when its stripped page-URL key is valid and has not
occurred earlier in the list. -/
theorem search_images_dedupe_spec (xs : List RawResult) :
    search_images_dedupe (search_images_dedupe xs) = search_images_dedupe xs ∧
    (search_images_dedupe xs).length ≤ xs.length ∧
    List.Sublist (search_images_dedupe xs) xs ∧
    search_images_dedupe xs = keepFirstValid [] xs := by
  refine ⟨?_, (dedupeAux_sublist xs []).length_le, dedupeAux_sublist xs [],
    dedupeAux_eq_keepFirstValid xs [] [] (by simp)⟩
  obtain ⟨hmem, hpw⟩ := dedupeAux_invariant xs []
  exact dedupeAux_fixed _ [] (fun r hr => (hmem r hr)) hpw

/-! ### Query-time error handling (`navigate_and_research_deep`,
`_validate_api_configuration`) -/

/-- The slice of the research payload dict the error-handling claim is
about; a missing `modo_emergencia` key in the normal payload is read as
`false`. -/
structure ResearchResult where
  query_original : String
  total_paginas_analisadas : ℕ
  modo_emergencia : Bool
  emergency_message : Option String

/-- Embedding of `_generate_emergency_research(query, context)`. -/
def generate_emergency_research (query : String) : ResearchResult :=
  { query_original := query
    total_paginas_analisadas := 0
    modo_emergencia := true
    emergency_message :=
      some "Navegação em modo de emergência - configure APIs para dados completos" }

/-- Embedding of `_process_and_analyze_content(all_content, query, ...)`:
an empty collection degrades to the emergency payload, otherwise the normal
payload is produced. Page items are opaque. -/
def process_and_analyze_content (all_content : List ℕ) (query : String) :
    ResearchResult :=
  if all_content.isEmpty then generate_emergency_research query
  else
    { query_original := query
      total_paginas_analisadas := all_content.length
      modo_emergencia := false
      emergency_message := none }

/-- Embedding of `navigate_and_research_deep`'s outermost control flow: the
whole body runs under one `try`; its outcome is either a collected content
list or a raised exception, and the `except` arm returns the emergency
payload instead of re-raising. -/
def navigate_and_research_deep (body : Except String (List ℕ))
    (query : String) : ResearchResult :=
  match body with
  | Except.error _ => generate_emergency_research query
  | Except.ok all_content => process_and_analyze_content all_content query

/-- Embedding of `_validate_api_configuration`: raises `ValueError` exactly
when the total number of configured keys over all providers is zero. -/
def validate_api_configuration (api_keys : List (List String)) :
    Except String Unit :=
  if (api_keys.map List.length).sum = 0 then
    Except.error "Nenhuma API configurada. Serviço requer APIs reais para funcionar."
  else Except.ok ()

/-- Claim C4: the deep-navigation entry point always returns a payload —
a raised body and an empty collection both map to the emergency payload,
which carries the emergency flag and a human-readable message, a non-empty
collection maps to a normal (non-emergency) payload — while constructing
the service with zero credentials across all providers is the one failure
that raises, at validation time. -/
theorem navigate_never_raises (body : Except String (List ℕ))
    (query : String) (api_keys : List (List String)) :
    (∀ e, body = Except.error e →
      navigate_and_research_deep body query =
        generate_emergency_research query) ∧
    (body = Except.ok [] →
      navigate_and_research_deep body query =
        generate_emergency_research query) ∧
    ((generate_emergency_research query).modo_emergencia = true ∧
      (generate_emergency_research query).emergency_message ≠ none) ∧
    (∀ content, body = Except.ok content → content ≠ [] →
      (navigate_and_research_deep body query).modo_emergencia = false) ∧
    ((api_keys.map List.length).sum = 0 ↔
      ∃ e, validate_api_configuration api_keys = Except.error e) := by
  refine ⟨?_, ?_, ⟨rfl, by simp [generate_emergency_research]⟩, ?_, ?_⟩
  · intro e he
    rw [he]
    rfl
  · intro he
    rw [he]
    rfl
  · intro content hc hne
    rw [hc]
    show (process_and_analyze_content content query).modo_emergencia = false
    rw [process_and_analyze_content,
      if_neg (by simpa [List.isEmpty_iff] using hne)]
  · constructor
    · intro h
      exact ⟨_, by rw [validate_api_configuration, if_pos h]⟩
    · rintro ⟨e, he⟩
      by_contra h
      rw [validate_api_configuration, if_neg h] at he
      exact Except.noConfusion he

/-- Witness for the error-handling claim: a raising body and an empty
collection both give the flagged emergency payload, a singleton collection
gives a normal payload, and an empty key configuration fails validation. -/
theorem navigate_never_raises_witness :
    navigate_and_research_deep (Except.error "engine timeout") "q" =
      generate_emergency_research "q" ∧
    navigate_and_research_deep (Except.ok []) "q" =
      generate_emergency_research "q" ∧
    (generate_emergency_research "q").modo_emergencia = true ∧
    (navigate_and_research_deep (Except.ok [7]) "q").modo_emergencia = false ∧
    (∃ e, validate_api_configuration [[], [], [], []] = Except.error e) := by
  have h1 := navigate_never_raises (Except.error "engine timeout") "q"
    [[], [], [], []]
  have h2 := navigate_never_raises (Except.ok ([] : List ℕ)) "q"
    [[], [], [], []]
  have h3 := navigate_never_raises (Except.ok [7]) "q" [[], [], [], []]
  exact ⟨h1.1 "engine timeout" rfl, h2.2.1 rfl, h1.2.2.1.1,
    h3.2.2.2.1 [7] rfl (by simp), h1.2.2.2.2.mp rfl⟩

/-! ### Engagement-analysis cascade (`analyze_post_engagement`,
`_estimate_engagement_by_platform`) -/

/-- Substring containment on strings, modelling Python's `in`. -/
def strContains (s pat : String) : Bool := containsL pat.data s.data

/-- The engagement metrics dict produced by the analysis strategies. -/
structure EngagementDict where
  engagement_score : ℚ
  views_estimate : ℤ
  likes_estimate : ℤ
  comments_estimate : ℤ
  shares_estimate : ℤ
  author : String
  author_followers : ℕ
  post_date : String
  hashtags : List String

/-- Embedding of `_estimate_engagement_by_platform(post_url, platform)`:
the URL/platform-shape estimate used as last resort. `int()` truncation of
the non-negative float products is `Int.floor` of the exact rationals. -/
def estimate_engagement_by_platform (post_url platform : String) :
    EngagementDict :=
  let base_score : ℚ :=
    if platform = "instagram" then
      if strContains post_url "/reel/" then 30.0 + 20.0 else 30.0
    else if platform = "facebook" then
      if strContains post_url "/photos/" then 20.0 + 10.0 else 20.0
    else if strContains post_url "youtube" then 40.0
    else 10.0
  let platform : String :=
    if platform ≠ "instagram" ∧ platform ≠ "facebook" ∧
        strContains post_url "youtube" then "youtube"
    else platform
  let multiplier : ℚ :=
    if platform = "instagram" then 25
    else if platform = "facebook" then 15
    else if platform = "youtube" then 50
    else 20
  { engagement_score := base_score
    views_estimate := Int.floor (base_score * multiplier)
    likes_estimate := Int.floor (base_score * 2)
    comments_estimate := Int.floor (base_score * 0.3)
    shares_estimate := Int.floor (base_score * 0.5)
    author := "Perfil Educacional"
    author_followers := 5000
    post_date := ""
    hashtags := [] }

/-- A strategy attempt inside `analyze_post_engagement`: a truthy dict is
returned, an exception or falsy result falls through. -/
def tryStrategy (r : Except Unit (Option EngagementDict))
    (fallback : EngagementDict) : EngagementDict :=
  match r with
  | Except.ok (some d) => d
  | _ => fallback

/-- A strategy outcome `analyze_post_engagement` falls through: an
exception or a `None`/falsy result. -/
def engFails : Except Unit (Option EngagementDict) → Bool
  | Except.ok (some _) => false
  | _ => true

/-- Embedding of `analyze_post_engagement(post_url, platform)` over the
outcomes of its four data sources: Apify and the Instagram embed endpoint
(tried only for Instagram post/reel URLs), the Facebook meta scrape (only
for Facebook), Playwright (only when enabled), then the platform
estimator. -/
def analyze_post_engagement (post_url platform : String)
    (apify embed fbmeta playwright : Except Unit (Option EngagementDict))
    (playwright_enabled : Bool) : EngagementDict :=
  let fallback3 := estimate_engagement_by_platform post_url platform
  let fallback2 :=
    if playwright_enabled then tryStrategy playwright fallback3 else fallback3
  let fallback1 :=
    if platform = "facebook" then tryStrategy fbmeta fallback2 else fallback2
  if platform = "instagram" ∧
      (strContains post_url "/p/" ∨ strContains post_url "/reel/") then
    tryStrategy apify (tryStrategy embed fallback1)
  else fallback1

theorem tryStrategy_fails {r : Except Unit (Option EngagementDict)}
    (h : engFails r = true) (fallback : EngagementDict) :
    tryStrategy r fallback = fallback := by
  match r with
  | Except.error _ => rfl
  | Except.ok none => rfl
  | Except.ok (some d) => exact absurd h (by simp [engFails])

/-- Claim C10: when every data-backed strategy fails, the analysis returns
the platform estimator's dict, and that estimator always assigns an
engagement score of at least 10, so a post is never left with a null or
zero engagement result. -/
theorem analyze_post_engagement_never_null (post_url platform : String)
    (apify embed fbmeta playwright : Except Unit (Option EngagementDict))
    (playwright_enabled : Bool) :
    (engFails apify = true → engFails embed = true → engFails fbmeta = true →
      engFails playwright = true →
      analyze_post_engagement post_url platform apify embed fbmeta playwright
        playwright_enabled = estimate_engagement_by_platform post_url platform) ∧
    10 ≤ (estimate_engagement_by_platform post_url platform).engagement_score := by
  constructor
  · intro ha he hf hp
    unfold analyze_post_engagement
    split_ifs with h1 h2 h3 h4 h5 <;>
      simp [tryStrategy_fails ha, tryStrategy_fails he, tryStrategy_fails hf,
        tryStrategy_fails hp]
  · show (10 : ℚ) ≤
      (if platform = "instagram" then
        if strContains post_url "/reel/" then 30.0 + 20.0 else 30.0
      else if platform = "facebook" then
        if strContains post_url "/photos/" then 20.0 + 10.0 else 20.0
      else if strContains post_url "youtube" then 40.0
      else 10.0)
    split_ifs <;> norm_num

/-- Witness for the analysis-fallback claim: with every strategy failing on
a plain web URL, the returned dict is the estimator's, whose score is at
least 10. -/
theorem analyze_post_engagement_never_null_witness :
    analyze_post_engagement "https://example.com/a" "web" (Except.error ())
      (Except.ok none) (Except.error ()) (Except.ok none) true =
      estimate_engagement_by_platform "https://example.com/a" "web" ∧
    10 ≤ (estimate_engagement_by_platform "https://example.com/a"
      "web").engagement_score := by
  have h := analyze_post_engagement_never_null "https://example.com/a" "web"
    (Except.error ()) (Except.ok none) (Except.error ()) (Except.ok none) true
  exact ⟨h.1 rfl rfl rfl rfl, h.2⟩

/-! ### Content-quality scoring (`_calculate_content_quality`) -/

/-- ASCII whitespace as recognised by Python `str.split()` and `\s`. -/
def pyIsSpace (c : Char) : Bool :=
  c == ' ' || c == '\t' || c == '\x0a' || c == '\x0d' ||
  c == Char.ofNat 11 || c == Char.ofNat 12

/-- Number of whitespace-separated words, modelling `len(content.split())`;
the boolean tracks whether the scan is inside a word. -/
def countWords : List Char → Bool → ℕ
  | [], _ => 0
  | c :: rest, inWord =>
    if pyIsSpace c then countWords rest false
    else (if inWord then 0 else 1) + countWords rest true

def wordCount (s : String) : ℕ := countWords s.data false

/-- `re.search(r"\d+%", s)`: a digit immediately followed by a percent
sign occurs somewhere. -/
def digitThenPercent : List Char → Bool
  | c1 :: c2 :: rest => (c1.isDigit && c2 == '%') || digitThenPercent (c2 :: rest)
  | _ => false

/-- `\s*` then one character of the given class, as matched after a literal
prefix. -/
def wsThenClass (cls : Char → Bool) : List Char → Bool
  | [] => false
  | c :: rest => if pyIsSpace c then wsThenClass cls rest else cls c

/-- `re.search(r"R\$\s*[\d,\.]+", s)`. -/
def moneyPattern : List Char → Bool
  | [] => false
  | c :: rest =>
    (isPrefixOfL ("R$".data) (c :: rest) &&
      wsThenClass (fun ch => ch.isDigit || ch == ',' || ch == '.')
        (List.drop 1 rest)) ||
    moneyPattern rest

/-- `\s*` then one of the given literal words. -/
def wsThenWord (words : List (List Char)) : List Char → Bool
  | [] => false
  | c :: rest =>
    words.any (fun w => isPrefixOfL w (c :: rest)) ||
      (pyIsSpace c && wsThenWord words rest)

/-- `re.search(r"\d+\s*(w1|w2|...)", s)` for literal word alternatives. -/
def digitsThenWord (words : List (List Char)) : List Char → Bool
  | [] => false
  | c :: rest => (c.isDigit && wsThenWord words rest) || digitsThenWord words rest

/-- `re.search(r"20(23|24|25)", s)`. -/
def yearPattern (cs : List Char) : Bool :=
  containsL ("2023".data) cs || containsL ("2024".data) cs ||
    containsL ("2025".data) cs

/-- How many of the five `data_patterns` regexes match the content. -/
def data_pattern_count (content : String) : ℕ :=
  (if digitThenPercent content.data then 1 else 0) +
  (if moneyPattern content.data then 1 else 0) +
  (if digitsThenWord [("mil".data), ("milhão".data), ("bilhão".data)]
      content.data then 1 else 0) +
  (if yearPattern content.data then 1 else 0) +
  (if digitsThenWord [("empresas".data), ("profissionais".data),
      ("clientes".data)] content.data then 1 else 0)

/-- The text after the first `//`, if any. -/
def afterDoubleSlash : List Char → Option (List Char)
  | [] => none
  | '/' :: '/' :: rest => some rest
  | _ :: rest => afterDoubleSlash rest

/-- The host part: everything up to the first `/`, `?` or `#`. -/
def takeNetloc : List Char → List Char
  | [] => []
  | c :: cs => if c == '/' || c == '?' || c == '#' then [] else c :: takeNetloc cs

/-- Models `urlparse(url).netloc` for `scheme://host/...` URLs. -/
def netlocOf (url : String) : String :=
  match afterDoubleSlash url.data with
  | some rest => String.mk (takeNetloc rest)
  | none => ""

/-- The agent's `preferred_domains` set. -/
def preferred_domains : List String :=
  ["g1.globo.com", "exame.com", "valor.globo.com", "estadao.com.br",
   "folha.uol.com.br", "canaltech.com.br", "tecmundo.com.br",
   "olhardigital.com.br", "infomoney.com.br", "startse.com",
   "revistapegn.globo.com", "epocanegocios.globo.com", "istoedinheiro.com.br",
   "convergenciadigital.com.br", "mobiletime.com.br", "teletime.com.br",
   "portaltelemedicina.com.br", "saudedigitalbrasil.com.br", "amb.org.br",
   "portal.cfm.org.br", "scielo.br", "ibge.gov.br", "fiocruz.br"]

/-- The length bucket of `_calculate_content_quality` (max 20 points). -/
def length_score (content : String) : ℚ :=
  if 2000 ≤ content.length then 20
  else if 1000 ≤ content.length then 15
  else if 500 ≤ content.length then 10
  else 5

/-- The query's domain context as read by the scorer. -/
structure QueryContext where
  segmento : Option String
  produto : Option String
  publico : Option String

/-- A truthy context value contributes its lowercased text as a term. -/
def optTerm : Option String → List String
  | some s => if s = "" then [] else [s.toLower]
  | none => []

def context_terms (ctx : QueryContext) : List String :=
  optTerm ctx.segmento ++ optTerm ctx.produto ++ optTerm ctx.publico

/-- The context-relevance component before its 30-point cap: 10 points per
context term occurring in the lowercased content. -/
def relevance_score (content_lower : String) (ctx : QueryContext) : ℚ :=
  (((context_terms ctx).filter
    (fun term => term ≠ "" ∧ strContains content_lower term)).length : ℚ) * 10

/-- The domain-tier component (max 20 points): preferred domains 20,
`.gov.br`/`.edu.br` 15, `.org.br` 10, else 5. -/
def domain_score (url : String) : ℚ :=
  let domain := (netlocOf url).toLower
  if preferred_domains.any (fun pref => strContains domain pref) then 20
  else if domain.endsWith ".gov.br" || domain.endsWith ".edu.br" then 15
  else if domain.endsWith ".org.br" then 10
  else 5

/-- The word-count bucket (max 15 points). -/
def word_score (content : String) : ℚ :=
  if 500 ≤ wordCount content then 15
  else if 200 ≤ wordCount content then 10
  else 5

/-- Embedding of `_calculate_content_quality(content, url, context)`. -/
def calculate_content_quality (content url : String) (ctx : QueryContext) : ℚ :=
  if content = "" then 0
  else
    min (length_score content + min (relevance_score content.toLower ctx) 30 +
      domain_score url + word_score content +
      min ((data_pattern_count content : ℚ) * 3) 15) 100

/-- Claim C8: for non-empty content the quality score is the sum of the
length bucket (≤20), the capped context-relevance component (10 per term,
≤30), the domain-tier bonus (≤20), the word-count bucket (≤15) and the
capped data-pattern component (≤15), clamped to `[0, 100]`. -/
theorem content_quality_structure (content url : String) (ctx : QueryContext)
    (h : content ≠ "") :
    calculate_content_quality content url ctx =
      min (length_score content + min (relevance_score content.toLower ctx) 30 +
        domain_score url + word_score content +
        min ((data_pattern_count content : ℚ) * 3) 15) 100 ∧
    length_score content ≤ 20 ∧
    relevance_score content.toLower ctx =
      10 * (((context_terms ctx).filter
        (fun term => term ≠ "" ∧ strContains content.toLower term)).length : ℚ) ∧
    min (relevance_score content.toLower ctx) 30 ≤ 30 ∧
    domain_score url ≤ 20 ∧
    word_score content ≤ 15 ∧
    min ((data_pattern_count content : ℚ) * 3) 15 ≤ 15 ∧
    0 ≤ calculate_content_quality content url ctx ∧
    calculate_content_quality content url ctx ≤ 100 := by
  have heq : calculate_content_quality content url ctx =
      min (length_score content + min (relevance_score content.toLower ctx) 30 +
        domain_score url + word_score content +
        min ((data_pattern_count content : ℚ) * 3) 15) 100 := by
    rw [calculate_content_quality, if_neg h]
  have hlen : length_score content ≤ 20 := by
    rw [length_score]; split_ifs <;> norm_num
  have hrel0 : 0 ≤ relevance_score content.toLower ctx := by
    rw [relevance_score]; positivity
  have hdom : domain_score url ≤ 20 ∧ 0 ≤ domain_score url := by
    rw [domain_score]; split_ifs <;> norm_num
  have hword : word_score content ≤ 15 ∧ 0 ≤ word_score content := by
    rw [word_score]; split_ifs <;> norm_num
  have hlen0 : 0 ≤ length_score content := by
    rw [length_score]; split_ifs <;> norm_num
  have hdata0 : 0 ≤ min ((data_pattern_count content : ℚ) * 3) 15 :=
    le_min (by positivity) (by norm_num)
  refine ⟨heq, hlen, by rw [relevance_score]; ring, min_le_right _ _,
    hdom.1, hword.1, min_le_right _ _, ?_, ?_⟩
  · rw [heq]
    refine le_min ?_ (by norm_num)
    have := le_min hrel0 (by norm_num : (0 : ℚ) ≤ 30)
    linarith [this]
  · rw [heq]
    exact min_le_right _ _

/-- Witness for the content-quality claim at concrete inputs. -/
theorem content_quality_structure_witness :
    calculate_content_quality "dados de 2024: 45% de crescimento"
      "https://ibge.gov.br/x" ⟨some "dados", none, none⟩ =
      min (length_score "dados de 2024: 45% de crescimento" +
        min (relevance_score
          ("dados de 2024: 45% de crescimento").toLower
          ⟨some "dados", none, none⟩) 30 +
        domain_score "https://ibge.gov.br/x" +
        word_score "dados de 2024: 45% de crescimento" +
        min ((data_pattern_count
          "dados de 2024: 45% de crescimento" : ℚ) * 3) 15) 100 ∧
    0 ≤ calculate_content_quality "dados de 2024: 45% de crescimento"
      "https://ibge.gov.br/x" ⟨some "dados", none, none⟩ := by
  have h := content_quality_structure "dados de 2024: 45% de crescimento"
    "https://ibge.gov.br/x" ⟨some "dados", none, none⟩ (by decide)
  exact ⟨h.1, h.2.2.2.2.2.2.2.1⟩

/-! ### Persisted results document (`find_viral_images` ordering,
`save_results`) -/

/-- A JSON value; object fields keep their insertion order, as Python dicts
and `json.dump` do. -/
inductive Json where
  | null : Json
  | bool : Bool → Json
  | num : ℚ → Json
  | str : String → Json
  | arr : List Json → Json
  | obj : List (String × Json) → Json

/-- Field lookup in a JSON object. -/
def Json.getField : Json → String → Option Json
  | Json.obj fields, k => (fields.find? (fun p => p.1 == k)).map (fun p => p.2)
  | _, _ => none

/-- The field names of a JSON object, in order. -/
def Json.objKeys : Json → List String
  | Json.obj fields => fields.map (fun p => p.1)
  | _ => []

/-- The `ViralImage` dataclass. -/
structure ViralImage where
  image_url : String
  post_url : String
  platform : String
  title : String
  description : String
  engagement_score : ℚ
  views_estimate : ℤ
  likes_estimate : ℤ
  comments_estimate : ℤ
  shares_estimate : ℤ
  author : String
  author_followers : ℤ
  post_date : String
  hashtags : List String
  image_path : Option String
  screenshot_path : Option String
  extracted_at : String

/-- `dataclasses.asdict` on a `ViralImage`. -/
def ViralImage.asdict (img : ViralImage) : Json :=
  Json.obj [
    ("image_url", Json.str img.image_url),
    ("post_url", Json.str img.post_url),
    ("platform", Json.str img.platform),
    ("title", Json.str img.title),
    ("description", Json.str img.description),
    ("engagement_score", Json.num img.engagement_score),
    ("views_estimate", Json.num img.views_estimate),
    ("likes_estimate", Json.num img.likes_estimate),
    ("comments_estimate", Json.num img.comments_estimate),
    ("shares_estimate", Json.num img.shares_estimate),
    ("author", Json.str img.author),
    ("author_followers", Json.num img.author_followers),
    ("post_date", Json.str img.post_date),
    ("hashtags", Json.arr (img.hashtags.map Json.str)),
    ("image_path",
      match img.image_path with
      | none => Json.null
      | some p => Json.str p),
    ("screenshot_path",
      match img.screenshot_path with
      | none => Json.null
      | some p => Json.str p),
    ("extracted_at", Json.str img.extracted_at)]

/-- One per-platform accumulator of `save_results`'s `platform_stats`. -/
structure PlatformStats where
  count : ℕ
  total_engagement : ℚ
  total_views : ℤ
  total_likes : ℤ

def emptyStats : PlatformStats := ⟨0, 0, 0, 0⟩

def bumpStats (st : PlatformStats) (img : ViralImage) : PlatformStats :=
  { count := st.count + 1
    total_engagement := st.total_engagement + img.engagement_score
    total_views := st.total_views + img.views_estimate
    total_likes := st.total_likes + img.likes_estimate }

/-- One loop iteration of the `platform_stats` accumulation: create the
platform's entry on first sight (dict insertion order), then increment it. -/
def updatePlatformStats (stats : List (String × PlatformStats))
    (img : ViralImage) : List (String × PlatformStats) :=
  if stats.any (fun p => p.1 == img.platform) then
    stats.map (fun p =>
      if p.1 == img.platform then (p.1, bumpStats p.2 img) else p)
  else stats ++ [(img.platform, bumpStats emptyStats img)]

def platform_stats (imgs : List ViralImage) : List (String × PlatformStats) :=
  imgs.foldl updatePlatformStats []

/-- The per-platform JSON object written by `save_results`. -/
def statsToJson (st : PlatformStats) : Json :=
  Json.obj [
    ("count", Json.num st.count),
    ("total_engagement", Json.num st.total_engagement),
    ("total_views", Json.num st.total_views),
    ("total_likes", Json.num st.total_likes)]

def total_engagement (imgs : List ViralImage) : ℚ :=
  (imgs.map (fun i => i.engagement_score)).sum

/-- `total_engagement / len(viral_images) if viral_images else 0`. -/
def avg_engagement (imgs : List ViralImage) : ℚ :=
  if imgs.isEmpty then 0 else total_engagement imgs / imgs.length

/-- `max((img.engagement_score for img in viral_images), default=0)`. -/
def highest_engagement (imgs : List ViralImage) : ℚ :=
  match imgs.map (fun i => i.engagement_score) with
  | [] => 0
  | x :: xs => xs.foldl max x

/-- Python truthiness of an optional string field. -/
def truthyStr : Option String → Bool
  | none => false
  | some s => decide (s ≠ "")

/-- The `data` dict of `save_results(viral_images, query)`; the clock value
and the config/API status sub-dicts are passed in as parameters. -/
def save_results_data (viral_images : List ViralImage)
    (query extracted_at : String) (config_used api_status : Json) : Json :=
  Json.obj [
    ("query", Json.str query),
    ("extracted_at", Json.str extracted_at),
    ("total_content", Json.num viral_images.length),
    ("viral_content",
      Json.num (viral_images.filter (fun i => 20 ≤ i.engagement_score)).length),
    ("images_downloaded",
      Json.num (viral_images.filter (fun i => truthyStr i.image_path)).length),
    ("screenshots_taken",
      Json.num (viral_images.filter
        (fun i => truthyStr i.screenshot_path)).length),
    ("metrics", Json.obj [
      ("total_engagement_score", Json.num (total_engagement viral_images)),
      ("average_engagement", Json.num (round2 (avg_engagement viral_images))),
      ("highest_engagement", Json.num (highest_engagement viral_images)),
      ("total_estimated_views",
        Json.num ((viral_images.map (fun i => i.views_estimate)).sum : ℤ)),
      ("total_estimated_likes",
        Json.num ((viral_images.map (fun i => i.likes_estimate)).sum : ℤ))]),
    ("platform_distribution",
      Json.obj ((platform_stats viral_images).map
        (fun p => (p.1, statsToJson p.2)))),
    ("top_performers",
      Json.arr ((viral_images.take 5).map ViralImage.asdict)),
    ("all_content", Json.arr (viral_images.map ViralImage.asdict)),
    ("config_used", config_used),
    ("api_status", api_status)]

/-- The `viral_images.sort(key=lambda x: x.engagement_score, reverse=True)`
step of `find_viral_images`: a stable descending sort. -/
def sort_by_engagement (imgs : List ViralImage) : List ViralImage :=
  imgs.mergeSort (fun a b => decide (b.engagement_score ≤ a.engagement_score))

/-- A concrete `ViralImage` for checking the document shape. -/
def sampleImage (purl : String) (score : ℚ) : ViralImage :=
  ⟨"iu", purl, "instagram", "t", "d", score, 100, 10, 1, 2, "a", 5000, "pd",
    [], none, none, "ts"⟩

/-- Claim C7, counterexample to the stated per-platform field names: for a
concrete single-image run the persisted `platform_distribution` entry for
`instagram` has fields `count`, `total_engagement`, `total_views`,
`total_likes` — the claimed names `engagement`, `views`, `likes` are
absent. -/
theorem save_results_platform_keys_counterexample :
    ((save_results_data [sampleImage "p" 50] "q" "ts"
      Json.null Json.null).getField "platform_distribution").map
      Json.objKeys = some ["instagram"] ∧
    (((save_results_data [sampleImage "p" 50] "q" "ts"
      Json.null Json.null).getField "platform_distribution").bind
      (fun pd => pd.getField "instagram")).map Json.objKeys =
      some ["count", "total_engagement", "total_views", "total_likes"] ∧
    (((save_results_data [sampleImage "p" 50] "q" "ts"
      Json.null Json.null).getField "platform_distribution").bind
      (fun pd => pd.getField "instagram")).bind
      (fun st => st.getField "engagement") = none ∧
    (((save_results_data [sampleImage "p" 50] "q" "ts"
      Json.null Json.null).getField "platform_distribution").bind
      (fun pd => pd.getField "instagram")).bind
      (fun st => st.getField "views") = none ∧
    (((save_results_data [sampleImage "p" 50] "q" "ts"
      Json.null Json.null).getField "platform_distribution").bind
      (fun pd => pd.getField "instagram")).bind
      (fun st => st.getField "likes") = none :=
  ⟨rfl, rfl, rfl, rfl, rfl⟩

/-- Claim C7 (amended): the persisted document has exactly the code's field
names and nesting — `query`, `extracted_at`, `total_content`, `metrics`
with its five named entries, `platform_distribution` mapping each platform
to `{count, total_engagement, total_views, total_likes}`, `top_performers`
being exactly the first 5 ranked items and `all_content` the full ranked
list — where the ranked list is a permutation of the input ordered by
non-increasing engagement score, stable so that ties keep discovery
order. -/
theorem save_results_document (imgs : List ViralImage) (query ts : String)
    (cfg apis : Json) :
    (save_results_data (sort_by_engagement imgs) query ts cfg apis).objKeys =
      ["query", "extracted_at", "total_content", "viral_content",
       "images_downloaded", "screenshots_taken", "metrics",
       "platform_distribution", "top_performers", "all_content",
       "config_used", "api_status"] ∧
    (save_results_data (sort_by_engagement imgs) query ts cfg
      apis).getField "query" = some (Json.str query) ∧
    (save_results_data (sort_by_engagement imgs) query ts cfg
      apis).getField "extracted_at" = some (Json.str ts) ∧
    (save_results_data (sort_by_engagement imgs) query ts cfg
      apis).getField "total_content" = some (Json.num (imgs.length : ℚ)) ∧
    ((save_results_data (sort_by_engagement imgs) query ts cfg
      apis).getField "metrics").map Json.objKeys =
      some ["total_engagement_score", "average_engagement",
        "highest_engagement", "total_estimated_views",
        "total_estimated_likes"] ∧
    (((save_results_data (sort_by_engagement imgs) query ts cfg
      apis).getField "metrics").bind
        (fun m => m.getField "total_engagement_score")) =
      some (Json.num ((imgs.map (fun i => i.engagement_score)).sum)) ∧
    (((save_results_data (sort_by_engagement imgs) query ts cfg
      apis).getField "metrics").bind
        (fun m => m.getField "average_engagement")) =
      some (Json.num (round2 (avg_engagement (sort_by_engagement imgs)))) ∧
    (((save_results_data (sort_by_engagement imgs) query ts cfg
      apis).getField "metrics").bind
        (fun m => m.getField "total_estimated_views")) =
      some (Json.num (((imgs.map (fun i => i.views_estimate)).sum : ℤ) : ℚ)) ∧
    (((save_results_data (sort_by_engagement imgs) query ts cfg
      apis).getField "metrics").bind
        (fun m => m.getField "total_estimated_likes")) =
      some (Json.num (((imgs.map (fun i => i.likes_estimate)).sum : ℤ) : ℚ)) ∧
    ((save_results_data (sort_by_engagement imgs) query ts cfg
      apis).getField "platform_distribution" =
      some (Json.obj ((platform_stats (sort_by_engagement imgs)).map
        (fun p => (p.1, statsToJson p.2)))) ∧
      ∀ st : PlatformStats, (statsToJson st).objKeys =
        ["count", "total_engagement", "total_views", "total_likes"]) ∧
    (save_results_data (sort_by_engagement imgs) query ts cfg
      apis).getField "top_performers" =
      some (Json.arr (((sort_by_engagement imgs).take 5).map
        ViralImage.asdict)) ∧
    (save_results_data (sort_by_engagement imgs) query ts cfg
      apis).getField "all_content" =
      some (Json.arr ((sort_by_engagement imgs).map ViralImage.asdict)) ∧
    List.Perm (sort_by_engagement imgs) imgs ∧
    List.Pairwise (fun a b => b.engagement_score ≤ a.engagement_score)
      (sort_by_engagement imgs) ∧
    (∀ a b : ViralImage, a.engagement_score = b.engagement_score →
      List.Sublist [a, b] imgs →
      List.Sublist [a, b] (sort_by_engagement imgs)) := by
  have htrans : ∀ (a b c : ViralImage),
      decide (b.engagement_score ≤ a.engagement_score) = true →
      decide (c.engagement_score ≤ b.engagement_score) = true →
      decide (c.engagement_score ≤ a.engagement_score) = true := by
    intro a b c h1 h2
    rw [decide_eq_true_eq] at *
    exact le_trans h2 h1
  have htotal : ∀ (a b : ViralImage),
      (decide (b.engagement_score ≤ a.engagement_score) ||
        decide (a.engagement_score ≤ b.engagement_score)) = true := by
    intro a b
    rcases le_total b.engagement_score a.engagement_score with h | h <;>
      simp [h]
  have hperm : List.Perm (sort_by_engagement imgs) imgs :=
    List.mergeSort_perm imgs _
  refine ⟨rfl, rfl, rfl, ?_, rfl, ?_, rfl, ?_, ?_, ⟨rfl, fun st => rfl⟩,
    rfl, rfl, hperm, ?_, ?_⟩
  · show some (Json.num ((sort_by_engagement imgs).length : ℚ)) =
      some (Json.num (imgs.length : ℚ))
    rw [sort_by_engagement, List.length_mergeSort]
  · show some (Json.num (total_engagement (sort_by_engagement imgs))) =
      some (Json.num ((imgs.map (fun i => i.engagement_score)).sum))
    rw [total_engagement, (hperm.map (fun i => i.engagement_score)).sum_eq]
  · show some (Json.num
      (((((sort_by_engagement imgs).map (fun i => i.views_estimate)).sum : ℤ)) : ℚ)) =
      some (Json.num (((imgs.map (fun i => i.views_estimate)).sum : ℤ) : ℚ))
    rw [(hperm.map (fun i => i.views_estimate)).sum_eq]
  · show some (Json.num
      (((((sort_by_engagement imgs).map (fun i => i.likes_estimate)).sum : ℤ)) : ℚ)) =
      some (Json.num (((imgs.map (fun i => i.likes_estimate)).sum : ℤ) : ℚ))
    rw [(hperm.map (fun i => i.likes_estimate)).sum_eq]
  · have hs := List.sorted_mergeSort htrans htotal imgs
    exact hs.imp (fun h => by simpa using h)
  · intro a b heq hsub
    exact List.pair_sublist_mergeSort htrans htotal (by simp [heq]) hsub


/-- Witness for the persisted-document claim at a concrete two-image run
with tied scores: the document carries the query and the stable sort keeps
the tied pair in discovery order. -/
theorem save_results_document_witness :
    (save_results_data (sort_by_engagement
      [sampleImage "p1" 30, sampleImage "p2" 30]) "q" "t" Json.null
      Json.null).getField "query" = some (Json.str "q") ∧
    List.Sublist [sampleImage "p1" 30, sampleImage "p2" 30]
      (sort_by_engagement [sampleImage "p1" 30, sampleImage "p2" 30]) := by
  have h := save_results_document [sampleImage "p1" 30, sampleImage "p2" 30]
    "q" "t" Json.null Json.null
  exact ⟨h.2.1, h.2.2.2.2.2.2.2.2.2.2.2.2.2.2 (sampleImage "p1" 30)
    (sampleImage "p2" 30) rfl (List.Sublist.refl _)⟩

end WebSailor
